import Mathlib

/-!
Shallow embedding of the real-estate transaction orchestrator
(`src/models/Transaction.ts`, `src/services/TransactionService.ts`).

Modelling conventions:
* JavaScript `Date` values are modelled as a `Nat` clock value passed
  explicitly into every operation (`now`); all `new Date()` calls inside a
  single method are identified with that one value.
* `uuidv4()` calls are modelled by explicit identifier parameters.
* Thrown `Error`s are modelled by the `TxError` inductive; every operation
  returns the transaction (or store) state as mutated up to the point of the
  throw, paired with `Option TxError`, mirroring the source's in-place
  mutation order.
* The `Map<string, Transaction>` store is modelled as an association list.
* Number formatting (`toLocaleString`) in log messages is modelled as
  `toString`.
-/

namespace RETS

inductive TransactionStatus where
  | INITIATED
  | CONTRACT_GENERATED
  | DOCUMENTS_PENDING
  | DOCUMENTS_VERIFIED
  | PAYMENT_PENDING
  | PAYMENT_RECEIVED
  | OWNERSHIP_TRANSFER_PENDING
  | COMPLETED
  | CANCELLED
  | DISPUTED
  deriving DecidableEq

inductive DocumentType where
  | TITLE_DEED
  | IDENTITY_SELLER
  | IDENTITY_BUYER
  | PURCHASE_AGREEMENT
  | MORTGAGE_APPROVAL
  | INSPECTION_REPORT
  deriving DecidableEq

inductive PaymentMethod where
  | BANK_TRANSFER
  | ESCROW
  | MORTGAGE
  deriving DecidableEq

inductive PartyRole where
  | SELLER
  | BUYER
  | AGENT
  | NOTARY
  deriving DecidableEq

structure Property where
  id : String
  address : String
  price : Int
  squareMeters : Int
  description : Option String
  deriving DecidableEq

structure Party where
  id : String
  name : String
  email : String
  phoneNumber : String
  role : PartyRole
  deriving DecidableEq

structure Document where
  id : String
  type : DocumentType
  uploadedBy : String
  uploadedAt : Nat
  verified : Bool
  verifiedBy : Option String
  verifiedAt : Option Nat
  notes : Option String
  deriving DecidableEq

structure Payment where
  id : String
  amount : Int
  paidBy : String
  paidAt : Nat
  method : PaymentMethod
  reference : String
  confirmed : Bool
  deriving DecidableEq

structure EscrowAccount where
  id : String
  balance : Int
  heldSince : Nat
  released : Bool
  deriving DecidableEq

structure AuditEvent where
  timestamp : Nat
  actor : String
  action : String
  description : String
  previousStatus : Option TransactionStatus
  newStatus : Option TransactionStatus
  deriving DecidableEq

structure GeneratedContract where
  id : String
  templateVersion : String
  generatedAt : Nat
  propertyAddress : String
  sellerName : String
  buyerName : String
  agreedPrice : Int
  content : String
  deriving DecidableEq

structure Transaction where
  id : String
  property : Property
  seller : Party
  buyer : Party
  status : TransactionStatus
  documents : List Document
  payments : List Payment
  escrow : Option EscrowAccount
  auditLog : List AuditEvent
  contract : Option GeneratedContract
  createdAt : Nat
  updatedAt : Nat
  completedAt : Option Nat
  cancelledAt : Option Nat
  disputeReason : Option String
  deriving DecidableEq

/-- Error taxonomy of the thrown `Error`s in `TransactionService`. -/
inductive TxError where
  | transactionNotFound (id : String)
  | escrowAlreadyOpen
  | invalidStatus (current : TransactionStatus) (allowed : List TransactionStatus) (operation : String)
  | documentNotFound (id : String)
  | documentAlreadyVerified (id : String)
  | nonPositiveAmount
  | paymentNotFound (id : String)
  | paymentAlreadyConfirmed
  | cannotCancelCompleted
  | cannotDisputeClosed
  deriving DecidableEq

/- String constants used in audit `action` tags and status validation labels. -/

def SYSTEM : String := "SYSTEM"
def statusChangedAction : String := "STATUS_CHANGED"
def transactionInitiatedAction : String := "TRANSACTION_INITIATED"
def contractGeneratedAction : String := "CONTRACT_GENERATED"
def escrowOpenedAction : String := "ESCROW_OPENED"
def documentUploadedAction : String := "DOCUMENT_UPLOADED"
def documentVerifiedAction : String := "DOCUMENT_VERIFIED"
def paymentSubmittedAction : String := "PAYMENT_SUBMITTED"
def escrowFundedAction : String := "ESCROW_FUNDED"
def paymentConfirmedAction : String := "PAYMENT_CONFIRMED"
def escrowReleasedAction : String := "ESCROW_RELEASED"
def ownershipTransferredAction : String := "OWNERSHIP_TRANSFERRED"
def transactionCancelledAction : String := "TRANSACTION_CANCELLED"
def disputeRaisedAction : String := "DISPUTE_RAISED"
def disputeResolvedAction : String := "DISPUTE_RESOLVED"

def uploadDocumentsLabel : String := "upload documents"
def processPaymentLabel : String := "process payment"
def completeTransferLabel : String := "complete transfer"
def resolveDisputeLabel : String := "resolve dispute"

def statusName : TransactionStatus → String
  | .INITIATED => "INITIATED"
  | .CONTRACT_GENERATED => "CONTRACT_GENERATED"
  | .DOCUMENTS_PENDING => "DOCUMENTS_PENDING"
  | .DOCUMENTS_VERIFIED => "DOCUMENTS_VERIFIED"
  | .PAYMENT_PENDING => "PAYMENT_PENDING"
  | .PAYMENT_RECEIVED => "PAYMENT_RECEIVED"
  | .OWNERSHIP_TRANSFER_PENDING => "OWNERSHIP_TRANSFER_PENDING"
  | .COMPLETED => "COMPLETED"
  | .CANCELLED => "CANCELLED"
  | .DISPUTED => "DISPUTED"

def documentTypeName : DocumentType → String
  | .TITLE_DEED => "TITLE_DEED"
  | .IDENTITY_SELLER => "IDENTITY_SELLER"
  | .IDENTITY_BUYER => "IDENTITY_BUYER"
  | .PURCHASE_AGREEMENT => "PURCHASE_AGREEMENT"
  | .MORTGAGE_APPROVAL => "MORTGAGE_APPROVAL"
  | .INSPECTION_REPORT => "INSPECTION_REPORT"

def paymentMethodName : PaymentMethod → String
  | .BANK_TRANSFER => "BANK_TRANSFER"
  | .ESCROW => "ESCROW"
  | .MORTGAGE => "MORTGAGE"

/-- `REQUIRED_DOCUMENTS` from `TransactionService.ts`. -/
def REQUIRED_DOCUMENTS : List DocumentType :=
  [.TITLE_DEED, .IDENTITY_SELLER, .IDENTITY_BUYER, .PURCHASE_AGREEMENT]

/-- `ContractService.TEMPLATE_VERSION`. -/
def TEMPLATE_VERSION : String := "v2.1-AI"

/-- `ContractService.renderTemplate`: the generated agreement text (line
joining and locale number formatting flattened into plain concatenation). -/
def renderTemplate (tx : Transaction) : String :=
  "PURCHASE AGREEMENT\n" ++
  "Property : " ++ tx.property.address ++ "\n" ++
  "           " ++ toString tx.property.squareMeters ++ " m2  |  " ++
    (tx.property.description.getD "") ++ "\n" ++
  "Seller   : " ++ tx.seller.name ++ " <" ++ tx.seller.email ++ ">\n" ++
  "Buyer    : " ++ tx.buyer.name ++ " <" ++ tx.buyer.email ++ ">\n" ++
  "Price    : EUR " ++ toString tx.property.price ++ "\n" ++
  "This agreement is auto-generated and legally binding upon e-signature\n" ++
  "by both parties. Funds will be held in escrow until deed transfer."

/-- `ContractService.generateContract` (the fresh contract id is passed in
for `uuidv4`). -/
def generateContract (contractId : String) (now : Nat) (tx : Transaction) :
    GeneratedContract :=
  { id := contractId
    templateVersion := TEMPLATE_VERSION
    generatedAt := now
    propertyAddress := tx.property.address
    sellerName := tx.seller.name
    buyerName := tx.buyer.name
    agreedPrice := tx.property.price
    content := renderTemplate tx }

/-- `TransactionService.addAuditEvent`: push one event onto the log. -/
def addAuditEvent (tx : Transaction) (actor action description : String)
    (previousStatus newStatus : Option TransactionStatus) (now : Nat) :
    Transaction :=
  { tx with auditLog := tx.auditLog ++
      [{ timestamp := now, actor := actor, action := action,
         description := description, previousStatus := previousStatus,
         newStatus := newStatus }] }

/-- The audit event appended by `transitionStatus`. -/
def statusChangedEvent (prev next : TransactionStatus) (actor : String)
    (now : Nat) : AuditEvent :=
  { timestamp := now, actor := actor, action := statusChangedAction,
    description := "Status: " ++ statusName prev ++ " → " ++ statusName next,
    previousStatus := some prev, newStatus := some next }

/-- `TransactionService.transitionStatus`: set the status, stamp
`updatedAt` and append one `STATUS_CHANGED` audit event carrying the
previous and new status. -/
def transitionStatus (tx : Transaction) (newStatus : TransactionStatus)
    (actor : String) (now : Nat) : Transaction :=
  let prev := tx.status
  { tx with
    status := newStatus
    updatedAt := now
    auditLog := tx.auditLog ++ [statusChangedEvent prev newStatus actor now] }

/-- `TransactionService.assertStatus`: `none` when the status is allowed,
the invalid-state error otherwise. -/
def assertStatus (tx : Transaction) (allowed : List TransactionStatus)
    (operation : String) : Option TxError :=
  if tx.status ∈ allowed then none
  else some (.invalidStatus tx.status allowed operation)

/-- Types of the verified documents (the `uploadedAndVerified` set in
`areAllRequiredDocumentsVerified`). -/
def verifiedDocumentTypes (documents : List Document) : List DocumentType :=
  (documents.filter (fun d => d.verified)).map (fun d => d.type)

/-- `TransactionService.areAllRequiredDocumentsVerified`, over the document
list. -/
def areAllRequiredDocumentsVerified (documents : List Document) : Bool :=
  REQUIRED_DOCUMENTS.all (fun t => decide (t ∈ verifiedDocumentTypes documents))

/-- In-place mutation of the `Document` object returned by
`tx.documents.find(...)`: rewrite the first document whose id matches. -/
def updateFirstDocument : List Document → String → (Document → Document) →
    List Document
  | [], _, _ => []
  | d :: ds, documentId, f =>
    if d.id = documentId then f d :: ds
    else d :: updateFirstDocument ds documentId f

/-- In-place mutation of the `Payment` object returned by
`tx.payments.find(...)`: rewrite the first payment whose id matches. -/
def updateFirstPayment : List Payment → String → (Payment → Payment) →
    List Payment
  | [], _, _ => []
  | p :: ps, paymentId, f =>
    if p.id = paymentId then f p :: ps
    else p :: updateFirstPayment ps paymentId f

/-- The `totalConfirmed` reduction in `confirmPayment`. -/
def totalConfirmedAmount (payments : List Payment) : Int :=
  ((payments.filter (fun p => p.confirmed)).map (fun p => p.amount)).foldl
    (fun sum a => sum + a) 0

/-- `TransactionService.initiateTransaction` (fresh transaction and contract
ids passed in for `uuidv4`). Creates the record in `INITIATED`, audits
creation, attaches the generated contract, and runs the two automatic
transitions to `CONTRACT_GENERATED` and `DOCUMENTS_PENDING`. -/
def initiateTransaction (property : Property) (seller buyer : Party)
    (txId contractId : String) (now : Nat) : Transaction :=
  let transaction : Transaction :=
    { id := txId, property := property, seller := seller, buyer := buyer,
      status := .INITIATED, documents := [], payments := [], escrow := none,
      auditLog := [], contract := none, createdAt := now, updatedAt := now,
      completedAt := none, cancelledAt := none, disputeReason := none }
  let tx := addAuditEvent transaction SYSTEM transactionInitiatedAction
    ("Transaction created for property at " ++ property.address) none none now
  let contract := generateContract contractId now tx
  let tx := { tx with contract := some contract }
  let tx := transitionStatus tx .CONTRACT_GENERATED SYSTEM now
  let tx := addAuditEvent tx SYSTEM contractGeneratedAction
    ("Purchase agreement auto-generated (id: " ++ contract.id ++
      ", template: " ++ contract.templateVersion ++ ")") none none now
  transitionStatus tx .DOCUMENTS_PENDING SYSTEM now

/-- Body of `TransactionService.openEscrow` after the store lookup (fresh
escrow id passed in for `uuidv4`). -/
def openEscrowTx (tx : Transaction) (actor escrowId : String) (now : Nat) :
    Transaction × Option TxError :=
  match tx.escrow with
  | some _ => (tx, some .escrowAlreadyOpen)
  | none =>
    let escrow : EscrowAccount :=
      { id := escrowId, balance := 0, heldSince := now, released := false }
    let tx := { tx with escrow := some escrow, updatedAt := now }
    let tx := addAuditEvent tx actor escrowOpenedAction
      ("Escrow account " ++ escrowId ++ " opened") none none now
    (tx, none)

/-- Body of `TransactionService.uploadDocument` after the store lookup
(fresh document id passed in for `uuidv4`). -/
def uploadDocumentTx (tx : Transaction) (documentType : DocumentType)
    (uploadedBy : String) (notes : Option String) (docId : String)
    (now : Nat) : Transaction × Option TxError :=
  match assertStatus tx [.DOCUMENTS_PENDING] uploadDocumentsLabel with
  | some e => (tx, some e)
  | none =>
    let document : Document :=
      { id := docId, type := documentType, uploadedBy := uploadedBy,
        uploadedAt := now, verified := false, verifiedBy := none,
        verifiedAt := none, notes := notes }
    let tx := { tx with
      documents := tx.documents ++ [document]
      updatedAt := now }
    let tx := addAuditEvent tx uploadedBy documentUploadedAction
      ("Document \x22" ++ documentTypeName documentType ++
        "\x22 uploaded (id: " ++ docId ++ ")") none none now
    (tx, none)

/-- Body of `TransactionService.verifyDocument` after the store lookup.
Note the source performs no status validation here. -/
def verifyDocumentTx (tx : Transaction) (documentId verifiedBy : String)
    (now : Nat) : Transaction × Option TxError :=
  match tx.documents.find? (fun d => decide (d.id = documentId)) with
  | none => (tx, some (.documentNotFound documentId))
  | some doc =>
    if doc.verified then (tx, some (.documentAlreadyVerified documentId))
    else
      let documents := updateFirstDocument tx.documents documentId
        (fun d => { d with
          verified := true
          verifiedBy := some verifiedBy
          verifiedAt := some now })
      let tx := { tx with documents := documents, updatedAt := now }
      let tx := addAuditEvent tx verifiedBy documentVerifiedAction
        ("Document \x22" ++ documentTypeName doc.type ++ "\x22 verified by "
          ++ verifiedBy) none none now
      if areAllRequiredDocumentsVerified tx.documents then
        let tx := transitionStatus tx .DOCUMENTS_VERIFIED verifiedBy now
        (transitionStatus tx .PAYMENT_PENDING SYSTEM now, none)
      else (tx, none)

/-- Body of `TransactionService.processPayment` after the store lookup
(fresh payment id passed in for `uuidv4`). -/
def processPaymentTx (tx : Transaction) (amount : Int) (paidBy : String)
    (method : PaymentMethod) (reference paymentId : String) (now : Nat) :
    Transaction × Option TxError :=
  match assertStatus tx [.PAYMENT_PENDING] processPaymentLabel with
  | some e => (tx, some e)
  | none =>
    if amount ≤ 0 then (tx, some .nonPositiveAmount)
    else
      let payment : Payment :=
        { id := paymentId, amount := amount, paidBy := paidBy, paidAt := now,
          method := method, reference := reference, confirmed := false }
      let tx := { tx with
        payments := tx.payments ++ [payment]
        updatedAt := now }
      let tx := addAuditEvent tx paidBy paymentSubmittedAction
        ("Payment of EUR " ++ toString amount ++ " submitted via " ++
          paymentMethodName method ++ " (ref: " ++ reference ++ ")")
        none none now
      if method = PaymentMethod.ESCROW then
        match tx.escrow with
        | some escrow =>
          let tx := { tx with
            escrow := some { escrow with balance := escrow.balance + amount } }
          let tx := addAuditEvent tx SYSTEM escrowFundedAction
            ("EUR " ++ toString amount ++ " deposited into escrow")
            none none now
          (tx, none)
        | none => (tx, none)
      else (tx, none)

/-- Body of `TransactionService.confirmPayment` after the store lookup.
Note the source performs no status validation here. -/
def confirmPaymentTx (tx : Transaction) (paymentId confirmedBy : String)
    (now : Nat) : Transaction × Option TxError :=
  match tx.payments.find? (fun p => decide (p.id = paymentId)) with
  | none => (tx, some (.paymentNotFound paymentId))
  | some payment =>
    if payment.confirmed then (tx, some .paymentAlreadyConfirmed)
    else
      let payments := updateFirstPayment tx.payments paymentId
        (fun p => { p with confirmed := true })
      let tx := { tx with payments := payments, updatedAt := now }
      let tx := addAuditEvent tx confirmedBy paymentConfirmedAction
        ("Payment " ++ paymentId ++ " confirmed by " ++ confirmedBy)
        none none now
      if totalConfirmedAmount tx.payments ≥ tx.property.price then
        let tx := transitionStatus tx .PAYMENT_RECEIVED confirmedBy now
        (transitionStatus tx .OWNERSHIP_TRANSFER_PENDING SYSTEM now, none)
      else (tx, none)

/-- Body of `TransactionService.completeOwnershipTransfer` after the store
lookup. -/
def completeOwnershipTransferTx (tx : Transaction) (notaryId : String)
    (now : Nat) : Transaction × Option TxError :=
  match assertStatus tx [.OWNERSHIP_TRANSFER_PENDING] completeTransferLabel with
  | some e => (tx, some e)
  | none =>
    let tx :=
      match tx.escrow with
      | some escrow =>
        if escrow.released then tx
        else
          let tx := { tx with escrow := some { escrow with released := true } }
          addAuditEvent tx notaryId escrowReleasedAction
            ("Escrow funds (EUR " ++ toString escrow.balance ++
              ") released to seller") none none now
      | none => tx
    let tx := transitionStatus tx .COMPLETED notaryId now
    let tx := { tx with completedAt := some now }
    let tx := addAuditEvent tx notaryId ownershipTransferredAction
      ("Property \x22" ++ tx.property.address ++ "\x22 transferred from " ++
        tx.seller.name ++ " to " ++ tx.buyer.name) none none now
    (tx, none)

/-- Body of `TransactionService.cancelTransaction` after the store lookup. -/
def cancelTransactionTx (tx : Transaction) (actor reason : String)
    (now : Nat) : Transaction × Option TxError :=
  if tx.status = TransactionStatus.COMPLETED then
    (tx, some .cannotCancelCompleted)
  else
    let tx := transitionStatus tx .CANCELLED actor now
    let tx := { tx with cancelledAt := some now }
    let tx := addAuditEvent tx actor transactionCancelledAction
      ("Cancelled: " ++ reason) none none now
    (tx, none)

/-- Body of `TransactionService.raiseDispute` after the store lookup. -/
def raiseDisputeTx (tx : Transaction) (actor reason : String) (now : Nat) :
    Transaction × Option TxError :=
  if tx.status ∈ [TransactionStatus.COMPLETED, TransactionStatus.CANCELLED] then
    (tx, some .cannotDisputeClosed)
  else
    let tx := { tx with disputeReason := some reason }
    let tx := transitionStatus tx .DISPUTED actor now
    let tx := addAuditEvent tx actor disputeRaisedAction
      ("Dispute: " ++ reason) none none now
    (tx, none)

/-- Body of `TransactionService.resolveDispute` after the store lookup. -/
def resolveDisputeTx (tx : Transaction) (actor resolution : String)
    (now : Nat) : Transaction × Option TxError :=
  match assertStatus tx [.DISPUTED] resolveDisputeLabel with
  | some e => (tx, some e)
  | none =>
    let tx := { tx with disputeReason := none }
    let tx := transitionStatus tx .OWNERSHIP_TRANSFER_PENDING actor now
    let tx := addAuditEvent tx actor disputeResolvedAction
      ("Resolution: " ++ resolution) none none now
    (tx, none)

/-- The `transactions` map owned by `TransactionService`, as an association
list. -/
abbrev TransactionStore := List (String × Transaction)

/-- `Map.get` on the store. -/
def lookupTx : TransactionStore → String → Option Transaction
  | [], _ => none
  | (k, tx) :: rest, tid => if k = tid then some tx else lookupTx rest tid

/-- `Map.set` on the store (also how in-place mutation of a looked-up
transaction is reflected back). -/
def storeTx : TransactionStore → String → Transaction → TransactionStore
  | [], tid, tx => [(tid, tx)]
  | (k, old) :: rest, tid, tx =>
    if k = tid then (tid, tx) :: rest else (k, old) :: storeTx rest tid tx

/-- Shared prologue of every mutating service method: `getTransaction`
(throwing not-found on an unknown id), then the method body on the found
transaction, whose in-place mutations are reflected in the store. -/
def liftOp (f : Transaction → Transaction × Option TxError)
    (store : TransactionStore) (transactionId : String) :
    TransactionStore × Option TxError :=
  match lookupTx store transactionId with
  | none => (store, some (.transactionNotFound transactionId))
  | some tx =>
    let r := f tx
    (storeTx store transactionId r.1, r.2)

namespace TransactionService

/-- `TransactionService.openEscrow`. -/
def openEscrow (store : TransactionStore) (transactionId actor : String)
    (escrowId : String) (now : Nat) : TransactionStore × Option TxError :=
  liftOp (fun tx => openEscrowTx tx actor escrowId now) store transactionId

/-- `TransactionService.uploadDocument`. -/
def uploadDocument (store : TransactionStore)
    (transactionId : String) (documentType : DocumentType)
    (uploadedBy : String) (notes : Option String) (docId : String)
    (now : Nat) : TransactionStore × Option TxError :=
  liftOp (fun tx => uploadDocumentTx tx documentType uploadedBy notes docId now)
    store transactionId

/-- `TransactionService.verifyDocument`. -/
def verifyDocument (store : TransactionStore)
    (transactionId documentId verifiedBy : String) (now : Nat) :
    TransactionStore × Option TxError :=
  liftOp (fun tx => verifyDocumentTx tx documentId verifiedBy now)
    store transactionId

/-- `TransactionService.processPayment`. -/
def processPayment (store : TransactionStore) (transactionId : String)
    (amount : Int) (paidBy : String) (method : PaymentMethod)
    (reference paymentId : String) (now : Nat) :
    TransactionStore × Option TxError :=
  liftOp (fun tx => processPaymentTx tx amount paidBy method reference paymentId now)
    store transactionId

/-- `TransactionService.confirmPayment`. -/
def confirmPayment (store : TransactionStore)
    (transactionId paymentId confirmedBy : String) (now : Nat) :
    TransactionStore × Option TxError :=
  liftOp (fun tx => confirmPaymentTx tx paymentId confirmedBy now)
    store transactionId

/-- `TransactionService.completeOwnershipTransfer`. -/
def completeOwnershipTransfer (store : TransactionStore)
    (transactionId notaryId : String) (now : Nat) :
    TransactionStore × Option TxError :=
  liftOp (fun tx => completeOwnershipTransferTx tx notaryId now)
    store transactionId

/-- `TransactionService.cancelTransaction`. -/
def cancelTransaction (store : TransactionStore)
    (transactionId actor reason : String) (now : Nat) :
    TransactionStore × Option TxError :=
  liftOp (fun tx => cancelTransactionTx tx actor reason now) store transactionId

/-- `TransactionService.raiseDispute`. -/
def raiseDispute (store : TransactionStore)
    (transactionId actor reason : String) (now : Nat) :
    TransactionStore × Option TxError :=
  liftOp (fun tx => raiseDisputeTx tx actor reason now) store transactionId

/-- `TransactionService.resolveDispute`. -/
def resolveDispute (store : TransactionStore)
    (transactionId actor resolution : String) (now : Nat) :
    TransactionStore × Option TxError :=
  liftOp (fun tx => resolveDisputeTx tx actor resolution now) store transactionId

end TransactionService

/- Concrete executable traces, mirroring the demo data (price scaled to 100). -/

def sellerA : Party :=
  { id := "seller-001", name := "Anna Virtanen", email := "anna@example.com",
    phoneNumber := "+358401234567", role := .SELLER }

def buyerA : Party :=
  { id := "buyer-001", name := "Matti Korhonen", email := "matti@example.com",
    phoneNumber := "+358409876543", role := .BUYER }

def propA : Property :=
  { id := "prop-002", address := "Erottajankatu 5, Espoo", price := 100,
    squareMeters := 70, description := none }

/-- Freshly initiated transaction: status `DOCUMENTS_PENDING`. -/
def tx0 : Transaction :=
  initiateTransaction propA sellerA buyerA "tx-1" "contract-1" 0

/-- `tx0` with the four required documents uploaded. -/
def txDocs : Transaction :=
  (uploadDocumentTx
    (uploadDocumentTx
      (uploadDocumentTx
        (uploadDocumentTx tx0 .TITLE_DEED "seller-001" none "doc-1" 1).1
        .IDENTITY_SELLER "seller-001" none "doc-2" 2).1
      .IDENTITY_BUYER "buyer-001" none "doc-3" 3).1
    .PURCHASE_AGREEMENT "seller-001" none "doc-4" 4).1

/-- `txDocs` with three of the four required documents verified. -/
def txVer3 : Transaction :=
  (verifyDocumentTx
    (verifyDocumentTx
      (verifyDocumentTx txDocs "doc-1" "notary-001" 5).1
      "doc-2" "notary-001" 6).1
    "doc-3" "notary-001" 7).1

/-- `txVer3` cancelled by the buyer: status `CANCELLED`, one required
document still unverified. -/
def txCancelledA : Transaction :=
  (cancelTransactionTx txVer3 "buyer-001" "Buyer changed mind" 8).1

/-- `txVer3` with the last required document verified: status
`PAYMENT_PENDING`. -/
def txReadyToPay : Transaction :=
  (verifyDocumentTx txVer3 "doc-4" "notary-001" 8).1

/-- `txReadyToPay` with one unconfirmed bank-transfer payment covering the
price. -/
def txWithPayment : Transaction :=
  (processPaymentTx txReadyToPay 100 "buyer-001" .BANK_TRANSFER "REF-1"
    "pay-1" 9).1

/-- `txWithPayment` cancelled: status `CANCELLED`, the payment still
unconfirmed. -/
def txCancelledB : Transaction :=
  (cancelTransactionTx txWithPayment "buyer-001" "Second thoughts" 10).1

/-- The demo cancellation trace: initiate, open escrow, upload 2 of 4
required documents, cancel. -/
def txCancelledC : Transaction :=
  (cancelTransactionTx
    (uploadDocumentTx
      (uploadDocumentTx
        (openEscrowTx tx0 "SYSTEM" "escrow-1" 1).1
        .TITLE_DEED "seller-001" none "doc-1" 2).1
      .IDENTITY_BUYER "buyer-001" none "doc-2" 3).1
    "buyer-001" "Buyer changed mind" 4).1

/-- Sum of the amounts of all escrow-method payments of a transaction
(the quantity named by the spec's escrow-balance invariant). -/
def escrowMethodTotal (tx : Transaction) : Int :=
  ((tx.payments.filter (fun p => decide (p.method = PaymentMethod.ESCROW))).map
    (fun p => p.amount)).sum

/-- `txReadyToPay` after an escrow-method payment processed while no escrow
account exists, then `openEscrow`: the balance starts at 0 although an
escrow-method payment of 100 is on the transaction. -/
def txEscrowLate : Transaction :=
  (openEscrowTx
    (processPaymentTx txReadyToPay 100 "buyer-001" .ESCROW "REF-2" "pay-2" 9).1
    "SYSTEM" "escrow-2" 10).1

/-- C1: the claim that the phase only moves along the §4.1 edges and that
CANCELLED is terminal fails on the code: `verifyDocument` performs no status
validation, so verifying the last required document of a cancelled
transaction succeeds and drives the phase CANCELLED → DOCUMENTS_VERIFIED →
PAYMENT_PENDING, an undefined transition out of a terminal phase. -/
theorem cancelled_not_terminal_bug :
    txCancelledA.status = TransactionStatus.CANCELLED ∧
    (verifyDocumentTx txCancelledA "doc-4" "notary-001" 9).2 = none ∧
    (verifyDocumentTx txCancelledA "doc-4" "notary-001" 9).1.status =
      TransactionStatus.PAYMENT_PENDING :=
  ⟨rfl, rfl, rfl⟩

/-- C2: the claim that after cancellation every `verifyDocument` call fails
with an invalid-state error fails on the code: on the spec's own
cancellation trace (initiate, open escrow, upload 2 of 4 documents, cancel)
a subsequent `verifyDocument` succeeds — it returns no error and flips the
document's verified flag. -/
theorem verify_after_cancel_succeeds_bug :
    txCancelledC.status = TransactionStatus.CANCELLED ∧
    (verifyDocumentTx txCancelledC "doc-1" "ai-notary-agent-v1" 5).2 = none ∧
    ((verifyDocumentTx txCancelledC "doc-1" "ai-notary-agent-v1" 5).1.documents.find?
        (fun d => decide (d.id = "doc-1"))).map (fun d => d.verified) =
      some true :=
  ⟨rfl, rfl, rfl⟩

/-- C9: `cancelTransaction` itself fails exactly on COMPLETED and otherwise
cancels, but the resulting CANCELLED phase is not terminal: `confirmPayment`
performs no status validation, so confirming the pending payment of a
cancelled transaction succeeds and drives the phase to
OWNERSHIP_TRANSFER_PENDING. -/
theorem cancel_terminality_bug :
    txCancelledB.status = TransactionStatus.CANCELLED ∧
    (confirmPaymentTx txCancelledB "pay-1" "bank-001" 11).2 = none ∧
    (confirmPaymentTx txCancelledB "pay-1" "bank-001" 11).1.status =
      TransactionStatus.OWNERSHIP_TRANSFER_PENDING :=
  ⟨rfl, rfl, rfl⟩

/-- C4 counterexample: cancelling an already-cancelled transaction appends a
`STATUS_CHANGED` audit event whose previous and new status are both
CANCELLED while the phase field's value never changes, refuting "no
STATUS_CHANGED event is appended without a corresponding phase change". -/
theorem status_changed_self_loop_counterexample :
    (cancelTransactionTx txCancelledA "buyer-001" "Cancelling again" 9).2 =
      none ∧
    (cancelTransactionTx txCancelledA "buyer-001" "Cancelling again" 9).1.status =
      txCancelledA.status ∧
    ((cancelTransactionTx txCancelledA "buyer-001" "Cancelling again" 9).1.auditLog.drop
        txCancelledA.auditLog.length).map
      (fun ev => (ev.action, ev.previousStatus, ev.newStatus)) =
      [(statusChangedAction, some TransactionStatus.CANCELLED,
          some TransactionStatus.CANCELLED),
        (transactionCancelledAction, none, none)] :=
  ⟨rfl, rfl, rfl⟩

/-- C3 counterexample: when an escrow-method payment is processed before
`openEscrow`, the escrow balance (0) differs from the sum of escrow-method
payments (100), refuting "regardless of the order in which openEscrow and
processPayment were called". -/
theorem escrow_balance_order_counterexample :
    txEscrowLate.escrow.map (fun e => e.balance) = some 0 ∧
    escrowMethodTotal txEscrowLate = 100 ∧
    txEscrowLate.escrow.map (fun e => e.balance) ≠
      some (escrowMethodTotal txEscrowLate) :=
  ⟨rfl, rfl, by decide⟩

/- Validation precedes mutation: each operation body leaves the transaction
untouched whenever it reports an error. -/

theorem openEscrowTx_error_unchanged (tx : Transaction) (actor eid : String)
    (now : Nat) (e : TxError) (h : (openEscrowTx tx actor eid now).2 = some e) :
    (openEscrowTx tx actor eid now).1 = tx := by
  unfold openEscrowTx at h ⊢
  split at h <;> simp_all

theorem uploadDocumentTx_error_unchanged (tx : Transaction)
    (documentType : DocumentType) (uploadedBy : String) (notes : Option String)
    (docId : String) (now : Nat) (e : TxError)
    (h : (uploadDocumentTx tx documentType uploadedBy notes docId now).2 = some e) :
    (uploadDocumentTx tx documentType uploadedBy notes docId now).1 = tx := by
  unfold uploadDocumentTx at h ⊢
  split at h <;> simp_all

theorem verifyDocumentTx_error_unchanged (tx : Transaction)
    (documentId verifiedBy : String) (now : Nat) (e : TxError)
    (h : (verifyDocumentTx tx documentId verifiedBy now).2 = some e) :
    (verifyDocumentTx tx documentId verifiedBy now).1 = tx := by
  unfold verifyDocumentTx at h ⊢
  split at h
  · simp_all
  · rename_i doc heq
    by_cases hv : doc.verified = true
    · simp_all
    · rw [if_neg hv] at h
      dsimp only at h
      split at h <;> simp_all

theorem processPaymentTx_error_unchanged (tx : Transaction) (amount : Int)
    (paidBy : String) (method : PaymentMethod) (reference paymentId : String)
    (now : Nat) (e : TxError)
    (h : (processPaymentTx tx amount paidBy method reference paymentId now).2 = some e) :
    (processPaymentTx tx amount paidBy method reference paymentId now).1 = tx := by
  unfold processPaymentTx at h ⊢
  split at h
  · simp_all
  · by_cases ha : amount ≤ 0
    · simp_all
    · rw [if_neg ha] at h
      dsimp only at h
      split at h
      · split at h <;> simp_all
      · simp_all

theorem confirmPaymentTx_error_unchanged (tx : Transaction)
    (paymentId confirmedBy : String) (now : Nat) (e : TxError)
    (h : (confirmPaymentTx tx paymentId confirmedBy now).2 = some e) :
    (confirmPaymentTx tx paymentId confirmedBy now).1 = tx := by
  unfold confirmPaymentTx at h ⊢
  split at h
  · simp_all
  · rename_i p heq
    by_cases hc : p.confirmed = true
    · simp_all
    · rw [if_neg hc] at h
      dsimp only at h
      split at h <;> simp_all

theorem completeOwnershipTransferTx_error_unchanged (tx : Transaction)
    (notaryId : String) (now : Nat) (e : TxError)
    (h : (completeOwnershipTransferTx tx notaryId now).2 = some e) :
    (completeOwnershipTransferTx tx notaryId now).1 = tx := by
  unfold completeOwnershipTransferTx at h ⊢
  split at h <;> simp_all

theorem cancelTransactionTx_error_unchanged (tx : Transaction)
    (actor reason : String) (now : Nat) (e : TxError)
    (h : (cancelTransactionTx tx actor reason now).2 = some e) :
    (cancelTransactionTx tx actor reason now).1 = tx := by
  unfold cancelTransactionTx at h ⊢
  split at h <;> simp_all

theorem raiseDisputeTx_error_unchanged (tx : Transaction)
    (actor reason : String) (now : Nat) (e : TxError)
    (h : (raiseDisputeTx tx actor reason now).2 = some e) :
    (raiseDisputeTx tx actor reason now).1 = tx := by
  unfold raiseDisputeTx at h ⊢
  split at h <;> simp_all

theorem resolveDisputeTx_error_unchanged (tx : Transaction)
    (actor resolution : String) (now : Nat) (e : TxError)
    (h : (resolveDisputeTx tx actor resolution now).2 = some e) :
    (resolveDisputeTx tx actor resolution now).1 = tx := by
  unfold resolveDisputeTx at h ⊢
  split at h <;> simp_all

/-- Writing back the very transaction that was looked up leaves the store
unchanged. -/
theorem storeTx_lookup_self (store : TransactionStore) (tid : String)
    (tx : Transaction) (h : lookupTx store tid = some tx) :
    storeTx store tid tx = store := by
  induction store with
  | nil => simp [lookupTx] at h
  | cons hd tl ih =>
    obtain ⟨k, old⟩ := hd
    unfold lookupTx at h
    unfold storeTx
    by_cases hk : k = tid
    · subst hk
      simp at h
      simp [h]
    · simp [hk] at h ⊢
      exact ih h

/-- A service method whose body reports an error without mutating the
transaction leaves the whole store unchanged. -/
theorem liftOp_error_unchanged (f : Transaction → Transaction × Option TxError)
    (hf : ∀ tx e, (f tx).2 = some e → (f tx).1 = tx)
    (store : TransactionStore) (tid : String) (e : TxError)
    (h : (liftOp f store tid).2 = some e) : (liftOp f store tid).1 = store := by
  unfold liftOp at h ⊢
  cases hl : lookupTx store tid with
  | none => simp [hl]
  | some tx =>
    simp only [hl] at h ⊢
    rw [hf tx e h]
    exact storeTx_lookup_self store tid tx hl

/-- C5: every orchestrator operation is atomic on failure — whenever
`openEscrow`, `uploadDocument`, `verifyDocument`, `processPayment`,
`confirmPayment`, `completeOwnershipTransfer`, `cancelTransaction`,
`raiseDispute` or `resolveDispute` reports an error, the transaction store
is exactly as it was before the call. -/
theorem operations_atomic_on_error :
    (∀ store tid actor eid now e,
      (TransactionService.openEscrow store tid actor eid now).2 = some e →
      (TransactionService.openEscrow store tid actor eid now).1 = store) ∧
    (∀ store tid dt by_ notes did now e,
      (TransactionService.uploadDocument store tid dt by_ notes did now).2 = some e →
      (TransactionService.uploadDocument store tid dt by_ notes did now).1 = store) ∧
    (∀ store tid did vb now e,
      (TransactionService.verifyDocument store tid did vb now).2 = some e →
      (TransactionService.verifyDocument store tid did vb now).1 = store) ∧
    (∀ store tid amount pb m ref pid now e,
      (TransactionService.processPayment store tid amount pb m ref pid now).2 = some e →
      (TransactionService.processPayment store tid amount pb m ref pid now).1 = store) ∧
    (∀ store tid pid cb now e,
      (TransactionService.confirmPayment store tid pid cb now).2 = some e →
      (TransactionService.confirmPayment store tid pid cb now).1 = store) ∧
    (∀ store tid nid now e,
      (TransactionService.completeOwnershipTransfer store tid nid now).2 = some e →
      (TransactionService.completeOwnershipTransfer store tid nid now).1 = store) ∧
    (∀ store tid actor reason now e,
      (TransactionService.cancelTransaction store tid actor reason now).2 = some e →
      (TransactionService.cancelTransaction store tid actor reason now).1 = store) ∧
    (∀ store tid actor reason now e,
      (TransactionService.raiseDispute store tid actor reason now).2 = some e →
      (TransactionService.raiseDispute store tid actor reason now).1 = store) ∧
    (∀ store tid actor res now e,
      (TransactionService.resolveDispute store tid actor res now).2 = some e →
      (TransactionService.resolveDispute store tid actor res now).1 = store) :=
  ⟨fun store tid actor eid now e h =>
    liftOp_error_unchanged _ (fun tx e h => openEscrowTx_error_unchanged tx actor eid now e h) store tid e h,
   fun store tid dt by_ notes did now e h =>
    liftOp_error_unchanged _ (fun tx e h => uploadDocumentTx_error_unchanged tx dt by_ notes did now e h) store tid e h,
   fun store tid did vb now e h =>
    liftOp_error_unchanged _ (fun tx e h => verifyDocumentTx_error_unchanged tx did vb now e h) store tid e h,
   fun store tid amount pb m ref pid now e h =>
    liftOp_error_unchanged _ (fun tx e h => processPaymentTx_error_unchanged tx amount pb m ref pid now e h) store tid e h,
   fun store tid pid cb now e h =>
    liftOp_error_unchanged _ (fun tx e h => confirmPaymentTx_error_unchanged tx pid cb now e h) store tid e h,
   fun store tid nid now e h =>
    liftOp_error_unchanged _ (fun tx e h => completeOwnershipTransferTx_error_unchanged tx nid now e h) store tid e h,
   fun store tid actor reason now e h =>
    liftOp_error_unchanged _ (fun tx e h => cancelTransactionTx_error_unchanged tx actor reason now e h) store tid e h,
   fun store tid actor reason now e h =>
    liftOp_error_unchanged _ (fun tx e h => raiseDisputeTx_error_unchanged tx actor reason now e h) store tid e h,
   fun store tid actor res now e h =>
    liftOp_error_unchanged _ (fun tx e h => resolveDisputeTx_error_unchanged tx actor res now e h) store tid e h⟩

/-- C5 witness: cancelling an unknown transaction on the empty store fails
and leaves the store empty. -/
theorem operations_atomic_on_error_witness :
    (TransactionService.cancelTransaction [] "tx-1" "buyer-001" "no" 0).2 =
      some (TxError.transactionNotFound "tx-1") ∧
    (TransactionService.cancelTransaction [] "tx-1" "buyer-001" "no" 0).1 = [] :=
  ⟨rfl, operations_atomic_on_error.2.2.2.2.2.2.1 [] "tx-1" "buyer-001" "no" 0
    (TxError.transactionNotFound "tx-1") rfl⟩

/-- A run of appended audit events viewed as a chain of status assignments:
non-`STATUS_CHANGED` events are skipped, and each `STATUS_CHANGED` event
must carry exactly the status before the assignment it records and hand the
recorded new status to the rest of the chain. -/
inductive StatusChain : TransactionStatus → List AuditEvent → TransactionStatus → Prop where
  | nil (s : TransactionStatus) : StatusChain s [] s
  | skip {s s2 : TransactionStatus} {e : AuditEvent} {rest : List AuditEvent}
      (ha : e.action ≠ statusChangedAction) (h : StatusChain s rest s2) :
      StatusChain s (e :: rest) s2
  | step {s mid s2 : TransactionStatus} {e : AuditEvent} {rest : List AuditEvent}
      (ha : e.action = statusChangedAction) (hp : e.previousStatus = some s)
      (hn : e.newStatus = some mid) (h : StatusChain mid rest s2) :
      StatusChain s (e :: rest) s2

/- None of the non-transition audit action tags is `STATUS_CHANGED`. -/

theorem ne_sc_transactionInitiated : transactionInitiatedAction ≠ statusChangedAction := by decide
theorem ne_sc_contractGenerated : contractGeneratedAction ≠ statusChangedAction := by decide
theorem ne_sc_escrowOpened : escrowOpenedAction ≠ statusChangedAction := by decide
theorem ne_sc_documentUploaded : documentUploadedAction ≠ statusChangedAction := by decide
theorem ne_sc_documentVerified : documentVerifiedAction ≠ statusChangedAction := by decide
theorem ne_sc_paymentSubmitted : paymentSubmittedAction ≠ statusChangedAction := by decide
theorem ne_sc_escrowFunded : escrowFundedAction ≠ statusChangedAction := by decide
theorem ne_sc_paymentConfirmed : paymentConfirmedAction ≠ statusChangedAction := by decide
theorem ne_sc_escrowReleased : escrowReleasedAction ≠ statusChangedAction := by decide
theorem ne_sc_ownershipTransferred : ownershipTransferredAction ≠ statusChangedAction := by decide
theorem ne_sc_transactionCancelled : transactionCancelledAction ≠ statusChangedAction := by decide
theorem ne_sc_disputeRaised : disputeRaisedAction ≠ statusChangedAction := by decide
theorem ne_sc_disputeResolved : disputeResolvedAction ≠ statusChangedAction := by decide

theorem auditChain_openEscrowTx (tx : Transaction) (actor eid : String)
    (now : Nat) :
    tx.auditLog <+: (openEscrowTx tx actor eid now).1.auditLog ∧
    StatusChain tx.status
      ((openEscrowTx tx actor eid now).1.auditLog.drop tx.auditLog.length)
      (openEscrowTx tx actor eid now).1.status := by
  unfold openEscrowTx
  split
  · exact ⟨ List.prefix_rfl, by simp [List.drop_length]; exact .nil _⟩
  · refine ⟨?_, ?_⟩
    · simp only [addAuditEvent]
      exact List.prefix_append _ _
    · simp only [addAuditEvent, List.drop_left]
      exact .skip ne_sc_escrowOpened (.nil _)

theorem auditChain_initiateTransaction (property : Property)
    (seller buyer : Party) (txId contractId : String) (now : Nat) :
    StatusChain .INITIATED
      (initiateTransaction property seller buyer txId contractId now).auditLog
      (initiateTransaction property seller buyer txId contractId now).status := by
  unfold initiateTransaction
  dsimp only
  simp only [addAuditEvent, transitionStatus, statusChangedEvent,
    List.append_assoc, List.singleton_append, List.nil_append]
  exact .skip ne_sc_transactionInitiated
    (.step rfl rfl rfl
      (.skip ne_sc_contractGenerated (.step rfl rfl rfl (.nil _))))

theorem auditChain_uploadDocumentTx (tx : Transaction)
    (documentType : DocumentType) (uploadedBy : String) (notes : Option String)
    (docId : String) (now : Nat) :
    tx.auditLog <+:
      (uploadDocumentTx tx documentType uploadedBy notes docId now).1.auditLog ∧
    StatusChain tx.status
      ((uploadDocumentTx tx documentType uploadedBy notes docId now).1.auditLog.drop
        tx.auditLog.length)
      (uploadDocumentTx tx documentType uploadedBy notes docId now).1.status := by
  unfold uploadDocumentTx
  split
  · exact ⟨ List.prefix_rfl, by simp [List.drop_length]; exact .nil _⟩
  · refine ⟨?_, ?_⟩
    · simp only [addAuditEvent]
      exact List.prefix_append _ _
    · simp only [addAuditEvent, List.drop_left]
      exact .skip ne_sc_documentUploaded (.nil _)

theorem auditChain_verifyDocumentTx (tx : Transaction)
    (documentId verifiedBy : String) (now : Nat) :
    tx.auditLog <+: (verifyDocumentTx tx documentId verifiedBy now).1.auditLog ∧
    StatusChain tx.status
      ((verifyDocumentTx tx documentId verifiedBy now).1.auditLog.drop
        tx.auditLog.length)
      (verifyDocumentTx tx documentId verifiedBy now).1.status := by
  unfold verifyDocumentTx
  split
  · exact ⟨ List.prefix_rfl, by simp [List.drop_length]; exact .nil _⟩
  · split
    · exact ⟨ List.prefix_rfl, by simp [List.drop_length]; exact .nil _⟩
    · dsimp only
      split
      · refine ⟨?_, ?_⟩
        · simp only [addAuditEvent, transitionStatus, statusChangedEvent,
            List.append_assoc]
          exact List.prefix_append _ _
        · simp only [addAuditEvent, transitionStatus, statusChangedEvent,
            List.append_assoc, List.singleton_append, List.drop_left]
          exact .skip ne_sc_documentVerified
            (.step rfl rfl rfl (.step rfl rfl rfl (.nil _)))
      · refine ⟨?_, ?_⟩
        · simp only [addAuditEvent]
          exact List.prefix_append _ _
        · simp only [addAuditEvent, List.drop_left]
          exact .skip ne_sc_documentVerified (.nil _)

theorem auditChain_processPaymentTx (tx : Transaction) (amount : Int)
    (paidBy : String) (method : PaymentMethod) (reference paymentId : String)
    (now : Nat) :
    tx.auditLog <+:
      (processPaymentTx tx amount paidBy method reference paymentId now).1.auditLog ∧
    StatusChain tx.status
      ((processPaymentTx tx amount paidBy method reference paymentId now).1.auditLog.drop
        tx.auditLog.length)
      (processPaymentTx tx amount paidBy method reference paymentId now).1.status := by
  unfold processPaymentTx
  split
  · exact ⟨ List.prefix_rfl, by simp [List.drop_length]; exact .nil _⟩
  · split
    · exact ⟨ List.prefix_rfl, by simp [List.drop_length]; exact .nil _⟩
    · dsimp only
      split
      · split
        · refine ⟨?_, ?_⟩
          · simp only [addAuditEvent, List.append_assoc]
            exact List.prefix_append _ _
          · simp only [addAuditEvent, List.append_assoc,
              List.singleton_append, List.drop_left]
            exact .skip ne_sc_paymentSubmitted
              (.skip ne_sc_escrowFunded (.nil _))
        · refine ⟨?_, ?_⟩
          · simp only [addAuditEvent]
            exact List.prefix_append _ _
          · simp only [addAuditEvent, List.drop_left]
            exact .skip ne_sc_paymentSubmitted (.nil _)
      · refine ⟨?_, ?_⟩
        · simp only [addAuditEvent]
          exact List.prefix_append _ _
        · simp only [addAuditEvent, List.drop_left]
          exact .skip ne_sc_paymentSubmitted (.nil _)

theorem auditChain_confirmPaymentTx (tx : Transaction)
    (paymentId confirmedBy : String) (now : Nat) :
    tx.auditLog <+: (confirmPaymentTx tx paymentId confirmedBy now).1.auditLog ∧
    StatusChain tx.status
      ((confirmPaymentTx tx paymentId confirmedBy now).1.auditLog.drop
        tx.auditLog.length)
      (confirmPaymentTx tx paymentId confirmedBy now).1.status := by
  unfold confirmPaymentTx
  split
  · exact ⟨ List.prefix_rfl, by simp [List.drop_length]; exact .nil _⟩
  · split
    · exact ⟨ List.prefix_rfl, by simp [List.drop_length]; exact .nil _⟩
    · dsimp only
      split
      · refine ⟨?_, ?_⟩
        · simp only [addAuditEvent, transitionStatus, statusChangedEvent,
            List.append_assoc]
          exact List.prefix_append _ _
        · simp only [addAuditEvent, transitionStatus, statusChangedEvent,
            List.append_assoc, List.singleton_append, List.drop_left]
          exact .skip ne_sc_paymentConfirmed
            (.step rfl rfl rfl (.step rfl rfl rfl (.nil _)))
      · refine ⟨?_, ?_⟩
        · simp only [addAuditEvent]
          exact List.prefix_append _ _
        · simp only [addAuditEvent, List.drop_left]
          exact .skip ne_sc_paymentConfirmed (.nil _)

theorem auditChain_completeOwnershipTransferTx (tx : Transaction)
    (notaryId : String) (now : Nat) :
    tx.auditLog <+:
      (completeOwnershipTransferTx tx notaryId now).1.auditLog ∧
    StatusChain tx.status
      ((completeOwnershipTransferTx tx notaryId now).1.auditLog.drop
        tx.auditLog.length)
      (completeOwnershipTransferTx tx notaryId now).1.status := by
  unfold completeOwnershipTransferTx
  split
  · exact ⟨ List.prefix_rfl, by simp [List.drop_length]; exact .nil _⟩
  · dsimp only
    split
    · split
      · refine ⟨?_, ?_⟩
        · simp only [addAuditEvent, transitionStatus, statusChangedEvent,
            List.append_assoc]
          exact List.prefix_append _ _
        · simp only [addAuditEvent, transitionStatus, statusChangedEvent,
            List.append_assoc, List.singleton_append, List.drop_left]
          exact .step rfl rfl rfl (.skip ne_sc_ownershipTransferred (.nil _))
      · refine ⟨?_, ?_⟩
        · simp only [addAuditEvent, transitionStatus, statusChangedEvent,
            List.append_assoc]
          exact List.prefix_append _ _
        · simp only [addAuditEvent, transitionStatus, statusChangedEvent,
            List.append_assoc, List.singleton_append, List.drop_left]
          exact .skip ne_sc_escrowReleased
            (.step rfl rfl rfl (.skip ne_sc_ownershipTransferred (.nil _)))
    · refine ⟨?_, ?_⟩
      · simp only [addAuditEvent, transitionStatus, statusChangedEvent,
          List.append_assoc]
        exact List.prefix_append _ _
      · simp only [addAuditEvent, transitionStatus, statusChangedEvent,
          List.append_assoc, List.singleton_append, List.drop_left]
        exact .step rfl rfl rfl (.skip ne_sc_ownershipTransferred (.nil _))

theorem auditChain_cancelTransactionTx (tx : Transaction)
    (actor reason : String) (now : Nat) :
    tx.auditLog <+: (cancelTransactionTx tx actor reason now).1.auditLog ∧
    StatusChain tx.status
      ((cancelTransactionTx tx actor reason now).1.auditLog.drop
        tx.auditLog.length)
      (cancelTransactionTx tx actor reason now).1.status := by
  unfold cancelTransactionTx
  split
  · exact ⟨ List.prefix_rfl, by simp [List.drop_length]; exact .nil _⟩
  · refine ⟨?_, ?_⟩
    · simp only [addAuditEvent, transitionStatus, statusChangedEvent,
        List.append_assoc]
      exact List.prefix_append _ _
    · simp only [addAuditEvent, transitionStatus, statusChangedEvent,
        List.append_assoc, List.singleton_append, List.drop_left]
      exact .step rfl rfl rfl (.skip ne_sc_transactionCancelled (.nil _))

theorem auditChain_raiseDisputeTx (tx : Transaction) (actor reason : String)
    (now : Nat) :
    tx.auditLog <+: (raiseDisputeTx tx actor reason now).1.auditLog ∧
    StatusChain tx.status
      ((raiseDisputeTx tx actor reason now).1.auditLog.drop
        tx.auditLog.length)
      (raiseDisputeTx tx actor reason now).1.status := by
  unfold raiseDisputeTx
  split
  · exact ⟨ List.prefix_rfl, by simp [List.drop_length]; exact .nil _⟩
  · refine ⟨?_, ?_⟩
    · simp only [addAuditEvent, transitionStatus, statusChangedEvent,
        List.append_assoc]
      exact List.prefix_append _ _
    · simp only [addAuditEvent, transitionStatus, statusChangedEvent,
        List.append_assoc, List.singleton_append, List.drop_left]
      exact .step rfl rfl rfl (.skip ne_sc_disputeRaised (.nil _))

theorem auditChain_resolveDisputeTx (tx : Transaction)
    (actor resolution : String) (now : Nat) :
    tx.auditLog <+: (resolveDisputeTx tx actor resolution now).1.auditLog ∧
    StatusChain tx.status
      ((resolveDisputeTx tx actor resolution now).1.auditLog.drop
        tx.auditLog.length)
      (resolveDisputeTx tx actor resolution now).1.status := by
  unfold resolveDisputeTx
  split
  · exact ⟨ List.prefix_rfl, by simp [List.drop_length]; exact .nil _⟩
  · refine ⟨?_, ?_⟩
    · simp only [addAuditEvent, transitionStatus, statusChangedEvent,
        List.append_assoc]
      exact List.prefix_append _ _
    · simp only [addAuditEvent, transitionStatus, statusChangedEvent,
        List.append_assoc, List.singleton_append, List.drop_left]
      exact .step rfl rfl rfl (.skip ne_sc_disputeResolved (.nil _))

/-- The mutating per-transaction operations of the orchestrator, with their
inputs (used to quantify over "every operation"). -/
inductive Op where
  | openEscrow (actor escrowId : String) (now : Nat)
  | uploadDocument (documentType : DocumentType) (uploadedBy : String)
      (notes : Option String) (docId : String) (now : Nat)
  | verifyDocument (documentId verifiedBy : String) (now : Nat)
  | processPayment (amount : Int) (paidBy : String) (method : PaymentMethod)
      (reference paymentId : String) (now : Nat)
  | confirmPayment (paymentId confirmedBy : String) (now : Nat)
  | completeOwnershipTransfer (notaryId : String) (now : Nat)
  | cancelTransaction (actor reason : String) (now : Nat)
  | raiseDispute (actor reason : String) (now : Nat)
  | resolveDispute (actor resolution : String) (now : Nat)

/-- Dispatch an operation to its body. -/
def applyTx : Op → Transaction → Transaction × Option TxError
  | .openEscrow actor eid now, tx => openEscrowTx tx actor eid now
  | .uploadDocument dt ub notes did now, tx =>
      uploadDocumentTx tx dt ub notes did now
  | .verifyDocument did vb now, tx => verifyDocumentTx tx did vb now
  | .processPayment amount pb m ref pid now, tx =>
      processPaymentTx tx amount pb m ref pid now
  | .confirmPayment pid cb now, tx => confirmPaymentTx tx pid cb now
  | .completeOwnershipTransfer nid now, tx =>
      completeOwnershipTransferTx tx nid now
  | .cancelTransaction actor reason now, tx =>
      cancelTransactionTx tx actor reason now
  | .raiseDispute actor reason now, tx => raiseDisputeTx tx actor reason now
  | .resolveDispute actor res now, tx => resolveDisputeTx tx actor res now

/-- C4 (amended): the audit log only grows — every operation leaves the
previous log as a prefix — and the events each operation appends form a
status chain: each `STATUS_CHANGED` event records one assignment to the
status field, carrying exactly the status before that assignment and the
newly assigned status, with the chain starting at the status before the
call and ending at the status after it (so every change of the status
field is matched by exactly one `STATUS_CHANGED` event; a `STATUS_CHANGED`
event may however record a self-assignment whose previous and new status
coincide, as when cancelling an already-cancelled transaction).
`initiateTransaction`'s whole log likewise chains from `INITIATED` to the
status it returns. -/
theorem audit_log_grows_and_status_chain :
    (∀ property seller buyer txId contractId now,
      StatusChain .INITIATED
        (initiateTransaction property seller buyer txId contractId now).auditLog
        (initiateTransaction property seller buyer txId contractId now).status) ∧
    (∀ (op : Op) (tx : Transaction),
      tx.auditLog <+: (applyTx op tx).1.auditLog ∧
      StatusChain tx.status
        ((applyTx op tx).1.auditLog.drop tx.auditLog.length)
        (applyTx op tx).1.status) := by
  refine ⟨auditChain_initiateTransaction, fun op tx => ?_⟩
  cases op with
  | openEscrow actor eid now => exact auditChain_openEscrowTx tx actor eid now
  | uploadDocument dt ub notes did now =>
    exact auditChain_uploadDocumentTx tx dt ub notes did now
  | verifyDocument did vb now => exact auditChain_verifyDocumentTx tx did vb now
  | processPayment amount pb m ref pid now =>
    exact auditChain_processPaymentTx tx amount pb m ref pid now
  | confirmPayment pid cb now => exact auditChain_confirmPaymentTx tx pid cb now
  | completeOwnershipTransfer nid now =>
    exact auditChain_completeOwnershipTransferTx tx nid now
  | cancelTransaction actor reason now =>
    exact auditChain_cancelTransactionTx tx actor reason now
  | raiseDispute actor reason now =>
    exact auditChain_raiseDisputeTx tx actor reason now
  | resolveDispute actor res now =>
    exact auditChain_resolveDisputeTx tx actor res now

/-- `txReadyToPay` with an escrow account opened while in
`PAYMENT_PENDING`. -/
def txPayEscrow : Transaction :=
  (openEscrowTx txReadyToPay "SYSTEM" "escrow-3" 9).1

/-- C3 (amended): the escrow balance equals the sum of the escrow-method
payments processed while the escrow account existed — `openEscrow` creates
the account with balance 0; a successful escrow-method `processPayment`
with the account present credits exactly its amount (while appending the
payment); a payment processed while no account exists is never credited;
non-escrow payments and every other operation leave the escrow account
untouched; and releasing the escrow at completion changes only the
`released` flag, not the balance. -/
theorem escrow_balance_credit_rules :
    (∀ (tx : Transaction) (actor eid : String) (now : Nat),
      tx.escrow = none →
      (openEscrowTx tx actor eid now).1.escrow =
        some { id := eid, balance := 0, heldSince := now, released := false } ∧
      (openEscrowTx tx actor eid now).1.payments = tx.payments) ∧
    (∀ (tx : Transaction) (amount : Int) (paidBy reference paymentId : String)
        (now : Nat) (esc : EscrowAccount),
      tx.status = .PAYMENT_PENDING → 0 < amount → tx.escrow = some esc →
      (processPaymentTx tx amount paidBy .ESCROW reference paymentId now).1.escrow =
        some { esc with balance := esc.balance + amount } ∧
      (processPaymentTx tx amount paidBy .ESCROW reference paymentId now).1.payments =
        tx.payments ++
          [{ id := paymentId, amount := amount, paidBy := paidBy,
             paidAt := now, method := .ESCROW, reference := reference,
             confirmed := false }]) ∧
    (∀ (tx : Transaction) (amount : Int) (paidBy : String)
        (method : PaymentMethod) (reference paymentId : String) (now : Nat),
      tx.escrow = none →
      (processPaymentTx tx amount paidBy method reference paymentId now).1.escrow =
        none) ∧
    (∀ (tx : Transaction) (amount : Int) (paidBy : String)
        (method : PaymentMethod) (reference paymentId : String) (now : Nat),
      method ≠ .ESCROW →
      (processPaymentTx tx amount paidBy method reference paymentId now).1.escrow =
        tx.escrow) ∧
    (∀ (tx : Transaction) (notaryId : String) (now : Nat),
      ((completeOwnershipTransferTx tx notaryId now).1.escrow).map
          (fun e => e.balance) =
        tx.escrow.map (fun e => e.balance)) ∧
    (∀ (tx : Transaction) (dt : DocumentType) (ub : String)
        (notes : Option String) (did : String) (now : Nat),
      (uploadDocumentTx tx dt ub notes did now).1.escrow = tx.escrow) ∧
    (∀ (tx : Transaction) (did vb : String) (now : Nat),
      (verifyDocumentTx tx did vb now).1.escrow = tx.escrow) ∧
    (∀ (tx : Transaction) (pid cb : String) (now : Nat),
      (confirmPaymentTx tx pid cb now).1.escrow = tx.escrow) ∧
    (∀ (tx : Transaction) (actor reason : String) (now : Nat),
      (cancelTransactionTx tx actor reason now).1.escrow = tx.escrow) ∧
    (∀ (tx : Transaction) (actor reason : String) (now : Nat),
      (raiseDisputeTx tx actor reason now).1.escrow = tx.escrow) ∧
    (∀ (tx : Transaction) (actor resolution : String) (now : Nat),
      (resolveDisputeTx tx actor resolution now).1.escrow = tx.escrow) := by
  refine ⟨?_, ?_, ?_, ?_, ?_, ?_, ?_, ?_, ?_, ?_, ?_⟩
  · intro tx actor eid now h
    unfold openEscrowTx
    rw [h]
    exact ⟨rfl, rfl⟩
  · intro tx amount paidBy reference paymentId now esc hst hpos hesc
    have hneg : ¬amount ≤ 0 := by omega
    unfold processPaymentTx
    split
    · rename_i e heq
      simp [assertStatus, hst] at heq
    · rw [if_neg hneg]
      dsimp only
      simp only [addAuditEvent]
      rw [if_pos trivial]
      simp [hesc]
  · intro tx amount paidBy method reference paymentId now h
    unfold processPaymentTx
    split
    · exact h
    · split
      · exact h
      · dsimp only
        simp only [addAuditEvent, h]
        split <;> rfl
  · intro tx amount paidBy method reference paymentId now h
    unfold processPaymentTx
    split
    · rfl
    · split
      · rfl
      · dsimp only
        simp only [addAuditEvent]
  · intro tx notaryId now
    unfold completeOwnershipTransferTx
    split
    · rfl
    · dsimp only
      split
      · rename_i esc hesc
        split
        · rfl
        · rw [hesc]
          rfl
      · rfl
  · intro tx dt ub notes did now
    unfold uploadDocumentTx
    split <;> rfl
  · intro tx did vb now
    unfold verifyDocumentTx
    split
    · rfl
    · split
      · rfl
      · dsimp only
        split <;> rfl
  · intro tx pid cb now
    unfold confirmPaymentTx
    split
    · rfl
    · split
      · rfl
      · dsimp only
        split <;> rfl
  · intro tx actor reason now
    unfold cancelTransactionTx
    split <;> rfl
  · intro tx actor reason now
    unfold raiseDisputeTx
    split <;> rfl
  · intro tx actor resolution now
    unfold resolveDisputeTx
    split <;> rfl

/-- C3 witness: on a concrete `PAYMENT_PENDING` transaction whose escrow
account was just opened (balance 0), processing an escrow-method payment of
100 leaves the balance at 100. -/
theorem escrow_balance_credit_rules_witness :
    (processPaymentTx txPayEscrow 100 "buyer-001" .ESCROW "REF-3" "pay-3"
        10).1.escrow =
      some { id := "escrow-3", balance := 100, heldSince := 9,
             released := false } :=
  (escrow_balance_credit_rules.2.1 txPayEscrow 100 "buyer-001" "REF-3"
    "pay-3" 10
    { id := "escrow-3", balance := 0, heldSince := 9, released := false }
    rfl (by decide) rfl).1

/-- A one-transaction store holding the cancelled transaction
`txCancelledA` under the key "tx-1". -/
def storeCancelled : TransactionStore := [("tx-1", txCancelledA)]

/-- C10: `openEscrow` performs no phase validation: it fails exactly when
the transaction id is unknown or an escrow account already exists, and for
any known transaction without an escrow account — whatever its phase,
COMPLETED and CANCELLED included — it succeeds, creates an account with
balance 0 and `released = false`, appends exactly one `ESCROW_OPENED` audit
event, and leaves the phase (and documents and payments) unchanged. -/
theorem openEscrow_no_phase_gate :
    (∀ (store : TransactionStore) (tid actor eid : String) (now : Nat),
      lookupTx store tid = none →
      TransactionService.openEscrow store tid actor eid now =
        (store, some (TxError.transactionNotFound tid))) ∧
    (∀ (store : TransactionStore) (tid actor eid : String) (now : Nat)
        (tx : Transaction) (esc : EscrowAccount),
      lookupTx store tid = some tx → tx.escrow = some esc →
      TransactionService.openEscrow store tid actor eid now =
        (store, some TxError.escrowAlreadyOpen)) ∧
    (∀ (store : TransactionStore) (tid actor eid : String) (now : Nat)
        (tx : Transaction),
      lookupTx store tid = some tx → tx.escrow = none →
      ∃ tx2 : Transaction,
        TransactionService.openEscrow store tid actor eid now =
          (storeTx store tid tx2, none) ∧
        tx2.status = tx.status ∧
        tx2.escrow =
          some { id := eid, balance := 0, heldSince := now,
                 released := false } ∧
        tx2.auditLog = tx.auditLog ++
          [{ timestamp := now, actor := actor, action := escrowOpenedAction,
             description := "Escrow account " ++ eid ++ " opened",
             previousStatus := none, newStatus := none }] ∧
        tx2.documents = tx.documents ∧ tx2.payments = tx.payments) := by
  refine ⟨?_, ?_, ?_⟩
  · intro store tid actor eid now h
    unfold TransactionService.openEscrow liftOp
    rw [h]
  · intro store tid actor eid now tx esc h hesc
    unfold TransactionService.openEscrow liftOp
    rw [h]
    dsimp only
    unfold openEscrowTx
    rw [hesc]
    dsimp only
    rw [storeTx_lookup_self store tid tx h]
  · intro store tid actor eid now tx h hesc
    unfold TransactionService.openEscrow liftOp
    rw [h]
    dsimp only
    unfold openEscrowTx
    rw [hesc]
    dsimp only
    refine ⟨_, rfl, rfl, rfl, ?_, rfl, rfl⟩
    simp [addAuditEvent]

/-- C10 witness: opening an escrow on the cancelled transaction of
`storeCancelled` succeeds, leaves the phase `CANCELLED`, and creates a
zero-balance unreleased account. -/
theorem openEscrow_no_phase_gate_witness :
    ∃ tx2 : Transaction,
      TransactionService.openEscrow storeCancelled "tx-1" "SYSTEM" "escrow-9"
          11 =
        (storeTx storeCancelled "tx-1" tx2, none) ∧
      tx2.status = txCancelledA.status ∧
      tx2.escrow =
        some { id := "escrow-9", balance := 0, heldSince := 11,
               released := false } ∧
      tx2.auditLog = txCancelledA.auditLog ++
        [{ timestamp := 11, actor := "SYSTEM", action := escrowOpenedAction,
           description := "Escrow account " ++ "escrow-9" ++ " opened",
           previousStatus := none, newStatus := none }] ∧
      tx2.documents = txCancelledA.documents ∧
      tx2.payments = txCancelledA.payments :=
  openEscrow_no_phase_gate.2.2 storeCancelled "tx-1" "SYSTEM" "escrow-9" 11
    txCancelledA rfl rfl

/-- Rewriting the first id-match through an id-preserving update is what a
later `find` on the same id sees. -/
theorem find_updateFirstDocument (l : List Document) (documentId : String)
    (f : Document → Document) (hf : ∀ d, (f d).id = d.id) (d : Document)
    (h : l.find? (fun x => decide (x.id = documentId)) = some d) :
    (updateFirstDocument l documentId f).find?
      (fun x => decide (x.id = documentId)) = some (f d) := by
  induction l with
  | nil => simp [List.find?] at h
  | cons a rest ih =>
    unfold updateFirstDocument
    by_cases ha : a.id = documentId
    · rw [if_pos ha]
      rw [List.find?_cons_of_pos _ (by simp [ha])] at h
      rw [List.find?_cons_of_pos _ (by simp [hf, ha])]
      simp at h
      rw [h]
    · rw [if_neg ha]
      rw [List.find?_cons_of_neg _ (by simp [ha])] at h
      rw [List.find?_cons_of_neg _ (by simp [ha])]
      exact ih h

/-- Payment version of `find_updateFirstDocument`. -/
theorem find_updateFirstPayment (l : List Payment) (paymentId : String)
    (f : Payment → Payment) (hf : ∀ p, (f p).id = p.id) (p : Payment)
    (h : l.find? (fun q => decide (q.id = paymentId)) = some p) :
    (updateFirstPayment l paymentId f).find?
      (fun q => decide (q.id = paymentId)) = some (f p) := by
  induction l with
  | nil => simp [List.find?] at h
  | cons a rest ih =>
    unfold updateFirstPayment
    by_cases ha : a.id = paymentId
    · rw [if_pos ha]
      rw [List.find?_cons_of_pos _ (by simp [ha])] at h
      rw [List.find?_cons_of_pos _ (by simp [hf, ha])]
      simp at h
      rw [h]
    · rw [if_neg ha]
      rw [List.find?_cons_of_neg _ (by simp [ha])] at h
      rw [List.find?_cons_of_neg _ (by simp [ha])]
      exact ih h

/-- Successful `verifyDocument`: no error, and the document list is the
first-match update. -/
theorem verifyDocumentTx_success_parts (tx : Transaction)
    (documentId verifiedBy : String) (now : Nat) (d : Document)
    (hfind : tx.documents.find? (fun x => decide (x.id = documentId)) = some d)
    (hv : d.verified = false) :
    (verifyDocumentTx tx documentId verifiedBy now).2 = none ∧
    (verifyDocumentTx tx documentId verifiedBy now).1.documents =
      updateFirstDocument tx.documents documentId
        (fun x => { x with
          verified := true
          verifiedBy := some verifiedBy
          verifiedAt := some now }) := by
  unfold verifyDocumentTx
  split
  · rename_i heq
    rw [hfind] at heq
    cases heq
  · rename_i q heq
    rw [hfind] at heq
    injection heq with heq2
    subst heq2
    rw [if_neg (by simp [hv])]
    dsimp only
    split <;> exact ⟨rfl, rfl⟩

/-- Successful `confirmPayment`: no error, and the payment list is the
first-match update. -/
theorem confirmPaymentTx_success_parts (tx : Transaction)
    (paymentId confirmedBy : String) (now : Nat) (p : Payment)
    (hfind : tx.payments.find? (fun q => decide (q.id = paymentId)) = some p)
    (hc : p.confirmed = false) :
    (confirmPaymentTx tx paymentId confirmedBy now).2 = none ∧
    (confirmPaymentTx tx paymentId confirmedBy now).1.payments =
      updateFirstPayment tx.payments paymentId
        (fun q => { q with confirmed := true }) := by
  unfold confirmPaymentTx
  split
  · rename_i heq
    rw [hfind] at heq
    cases heq
  · rename_i q heq
    rw [hfind] at heq
    injection heq with heq2
    subst heq2
    rw [if_neg (by simp [hc])]
    dsimp only
    split <;> exact ⟨rfl, rfl⟩

/-- C6: on a `PAYMENT_PENDING` transaction, confirming an existing
unconfirmed payment succeeds, flips exactly that payment, and then: if the
confirmed total now reaches or exceeds the property price, the call itself
advances the phase through `PAYMENT_RECEIVED` to
`OWNERSHIP_TRANSFER_PENDING`, appending the two corresponding
`STATUS_CHANGED` events; if the confirmed total is still below the price,
the phase stays `PAYMENT_PENDING` and only the confirmation event is
appended. -/
theorem confirmPayment_threshold_behavior :
    ∀ (tx : Transaction) (paymentId confirmedBy : String) (now : Nat)
      (p : Payment),
      tx.payments.find? (fun q => decide (q.id = paymentId)) = some p →
      p.confirmed = false →
      tx.status = TransactionStatus.PAYMENT_PENDING →
      (confirmPaymentTx tx paymentId confirmedBy now).2 = none ∧
      (confirmPaymentTx tx paymentId confirmedBy now).1.payments =
        updateFirstPayment tx.payments paymentId
          (fun q => { q with confirmed := true }) ∧
      (totalConfirmedAmount
          (updateFirstPayment tx.payments paymentId
            (fun q => { q with confirmed := true })) ≥ tx.property.price →
        (confirmPaymentTx tx paymentId confirmedBy now).1.status =
          TransactionStatus.OWNERSHIP_TRANSFER_PENDING ∧
        (confirmPaymentTx tx paymentId confirmedBy now).1.auditLog =
          tx.auditLog ++
            [{ timestamp := now, actor := confirmedBy,
               action := paymentConfirmedAction,
               description := "Payment " ++ paymentId ++ " confirmed by " ++
                 confirmedBy,
               previousStatus := none, newStatus := none },
             statusChangedEvent .PAYMENT_PENDING .PAYMENT_RECEIVED
               confirmedBy now,
             statusChangedEvent .PAYMENT_RECEIVED
               .OWNERSHIP_TRANSFER_PENDING SYSTEM now]) ∧
      (totalConfirmedAmount
          (updateFirstPayment tx.payments paymentId
            (fun q => { q with confirmed := true })) < tx.property.price →
        (confirmPaymentTx tx paymentId confirmedBy now).1.status =
          TransactionStatus.PAYMENT_PENDING ∧
        (confirmPaymentTx tx paymentId confirmedBy now).1.auditLog =
          tx.auditLog ++
            [{ timestamp := now, actor := confirmedBy,
               action := paymentConfirmedAction,
               description := "Payment " ++ paymentId ++ " confirmed by " ++
                 confirmedBy,
               previousStatus := none, newStatus := none }]) := by
  intro tx paymentId confirmedBy now p hfind hc hst
  unfold confirmPaymentTx
  split
  · rename_i heq
    rw [hfind] at heq
    cases heq
  · rename_i q heq
    rw [hfind] at heq
    injection heq with heq2
    subst heq2
    rw [if_neg (by simp [hc])]
    simp only [addAuditEvent]
    split
    · rename_i hge
      refine ⟨rfl, rfl, fun _ => ⟨rfl, ?_⟩, fun hlt => absurd hge (by omega)⟩
      simp [addAuditEvent, transitionStatus, statusChangedEvent, hst,
        List.append_assoc]
    · rename_i hnge
      refine ⟨rfl, rfl, fun hge => absurd hge hnge, fun _ => ⟨?_, ?_⟩⟩
      · exact hst
      · simp [addAuditEvent]

/-- C6 witness: on the concrete transaction `txWithPayment`
(`PAYMENT_PENDING`, price 100, one unconfirmed payment of 100), confirming
the payment succeeds and advances the phase to
`OWNERSHIP_TRANSFER_PENDING`. -/
theorem confirmPayment_threshold_behavior_witness :
    (confirmPaymentTx txWithPayment "pay-1" "bank-001" 10).2 = none ∧
    (confirmPaymentTx txWithPayment "pay-1" "bank-001" 10).1.status =
      TransactionStatus.OWNERSHIP_TRANSFER_PENDING :=
  ⟨(confirmPayment_threshold_behavior txWithPayment "pay-1" "bank-001" 10
      { id := "pay-1", amount := 100, paidBy := "buyer-001", paidAt := 9,
        method := .BANK_TRANSFER, reference := "REF-1", confirmed := false }
      rfl rfl rfl).1,
   ((confirmPayment_threshold_behavior txWithPayment "pay-1" "bank-001" 10
      { id := "pay-1", amount := 100, paidBy := "buyer-001", paidAt := 9,
        method := .BANK_TRANSFER, reference := "REF-1", confirmed := false }
      rfl rfl rfl).2.2.1 (by decide)).1⟩

/-- C7: on a `DOCUMENTS_PENDING` transaction, verifying an existing
unverified document succeeds and flips exactly that document; if afterwards
every required document kind has a verified document, the call itself
advances the phase through `DOCUMENTS_VERIFIED` to `PAYMENT_PENDING`,
appending the two corresponding `STATUS_CHANGED` events, and otherwise the
phase stays `DOCUMENTS_PENDING` with only the verification event appended.
The required-kinds check quantifies exactly over the four kinds title deed,
seller identity, buyer identity and purchase agreement — mortgage approval
and inspection report are never required. -/
theorem verifyDocument_advance_behavior :
    (∀ (tx : Transaction) (documentId verifiedBy : String) (now : Nat)
        (d : Document),
      tx.documents.find? (fun x => decide (x.id = documentId)) = some d →
      d.verified = false →
      tx.status = TransactionStatus.DOCUMENTS_PENDING →
      (verifyDocumentTx tx documentId verifiedBy now).2 = none ∧
      (verifyDocumentTx tx documentId verifiedBy now).1.documents =
        updateFirstDocument tx.documents documentId
          (fun x => { x with verified := true, verifiedBy := some verifiedBy, verifiedAt := some now }) ∧
      (areAllRequiredDocumentsVerified
          (updateFirstDocument tx.documents documentId
            (fun x => { x with verified := true, verifiedBy := some verifiedBy, verifiedAt := some now })) = true →
        (verifyDocumentTx tx documentId verifiedBy now).1.status =
          TransactionStatus.PAYMENT_PENDING ∧
        (verifyDocumentTx tx documentId verifiedBy now).1.auditLog =
          tx.auditLog ++
            [{ timestamp := now, actor := verifiedBy,
               action := documentVerifiedAction,
               description := "Document \x22" ++ documentTypeName d.type ++
                 "\x22 verified by " ++ verifiedBy,
               previousStatus := none, newStatus := none },
             statusChangedEvent .DOCUMENTS_PENDING .DOCUMENTS_VERIFIED
               verifiedBy now,
             statusChangedEvent .DOCUMENTS_VERIFIED .PAYMENT_PENDING
               SYSTEM now]) ∧
      (areAllRequiredDocumentsVerified
          (updateFirstDocument tx.documents documentId
            (fun x => { x with verified := true, verifiedBy := some verifiedBy, verifiedAt := some now })) = false →
        (verifyDocumentTx tx documentId verifiedBy now).1.status =
          TransactionStatus.DOCUMENTS_PENDING ∧
        (verifyDocumentTx tx documentId verifiedBy now).1.auditLog =
          tx.auditLog ++
            [{ timestamp := now, actor := verifiedBy,
               action := documentVerifiedAction,
               description := "Document \x22" ++ documentTypeName d.type ++
                 "\x22 verified by " ++ verifiedBy,
               previousStatus := none, newStatus := none }])) ∧
    (∀ docs : List Document,
      areAllRequiredDocumentsVerified docs = true ↔
        ∀ t ∈ REQUIRED_DOCUMENTS,
          ∃ d, d ∈ docs ∧ d.verified = true ∧ d.type = t) ∧
    REQUIRED_DOCUMENTS =
      [.TITLE_DEED, .IDENTITY_SELLER, .IDENTITY_BUYER, .PURCHASE_AGREEMENT] := by
  refine ⟨?_, ?_, rfl⟩
  · intro tx documentId verifiedBy now d hfind hv hst
    unfold verifyDocumentTx
    split
    · rename_i heq
      rw [hfind] at heq
      cases heq
    · rename_i q heq
      rw [hfind] at heq
      injection heq with heq2
      subst heq2
      rw [if_neg (by simp [hv])]
      simp only [addAuditEvent]
      split
      · rename_i hall
        refine ⟨rfl, rfl, fun _ => ⟨rfl, ?_⟩, fun hnall => ?_⟩
        · simp [transitionStatus, statusChangedEvent, hst, List.append_assoc]
        · rw [hall] at hnall
          cases hnall
      · rename_i hnall
        refine ⟨rfl, rfl, fun hall => absurd hall hnall, fun _ => ⟨?_, rfl⟩⟩
        exact hst
  · intro docs
    simp only [areAllRequiredDocumentsVerified, verifiedDocumentTypes,
      List.all_eq_true, decide_eq_true_eq, List.mem_map, List.mem_filter]
    constructor
    · intro h t ht
      obtain ⟨d, ⟨hd, hver⟩, htyp⟩ := h t ht
      exact ⟨d, hd, hver, htyp⟩
    · intro h t ht
      obtain ⟨d, hd, hver, htyp⟩ := h t ht
      exact ⟨d, ⟨hd, hver⟩, htyp⟩

/-- C7 witness: on the concrete transaction `txVer3` (three of the four
required documents verified), verifying the remaining purchase agreement
succeeds and advances the phase to `PAYMENT_PENDING` within the call. -/
theorem verifyDocument_advance_behavior_witness :
    (verifyDocumentTx txVer3 "doc-4" "notary-001" 8).2 = none ∧
    (verifyDocumentTx txVer3 "doc-4" "notary-001" 8).1.status =
      TransactionStatus.PAYMENT_PENDING :=
  ⟨(verifyDocument_advance_behavior.1 txVer3 "doc-4" "notary-001" 8
      { id := "doc-4", type := .PURCHASE_AGREEMENT,
        uploadedBy := "seller-001", uploadedAt := 4, verified := false,
        verifiedBy := none, verifiedAt := none, notes := none }
      rfl rfl rfl).1,
   ((verifyDocument_advance_behavior.1 txVer3 "doc-4" "notary-001" 8
      { id := "doc-4", type := .PURCHASE_AGREEMENT,
        uploadedBy := "seller-001", uploadedAt := 4, verified := false,
        verifiedBy := none, verifiedAt := none, notes := none }
      rfl rfl rfl).2.2.1 (by decide)).1⟩

/-- C8: the verified/confirmed flags flip false→true at most once. A
`verifyDocument` call on an already-verified document (or `confirmPayment`
on an already-confirmed payment) fails with the invalid-input error and
changes nothing; on an unverified document the call succeeds, sets the flag
together with the verifier and timestamp exactly once, and every further
call on the same identifier fails with the invalid-input error and changes
nothing. -/
theorem flags_flip_at_most_once :
    (∀ (tx : Transaction) (documentId verifiedBy : String) (now : Nat)
        (d : Document),
      tx.documents.find? (fun x => decide (x.id = documentId)) = some d →
      ((d.verified = true →
        verifyDocumentTx tx documentId verifiedBy now =
          (tx, some (.documentAlreadyVerified documentId))) ∧
       (d.verified = false →
        (verifyDocumentTx tx documentId verifiedBy now).2 = none ∧
        (verifyDocumentTx tx documentId verifiedBy now).1.documents.find?
            (fun x => decide (x.id = documentId)) =
          some { d with verified := true, verifiedBy := some verifiedBy, verifiedAt := some now } ∧
        ∀ (verifiedBy2 : String) (now2 : Nat),
          verifyDocumentTx (verifyDocumentTx tx documentId verifiedBy now).1
              documentId verifiedBy2 now2 =
            ((verifyDocumentTx tx documentId verifiedBy now).1,
             some (.documentAlreadyVerified documentId))))) ∧
    (∀ (tx : Transaction) (paymentId confirmedBy : String) (now : Nat)
        (p : Payment),
      tx.payments.find? (fun q => decide (q.id = paymentId)) = some p →
      ((p.confirmed = true →
        confirmPaymentTx tx paymentId confirmedBy now =
          (tx, some .paymentAlreadyConfirmed)) ∧
       (p.confirmed = false →
        (confirmPaymentTx tx paymentId confirmedBy now).2 = none ∧
        (confirmPaymentTx tx paymentId confirmedBy now).1.payments.find?
            (fun q => decide (q.id = paymentId)) =
          some { p with confirmed := true } ∧
        ∀ (confirmedBy2 : String) (now2 : Nat),
          confirmPaymentTx (confirmPaymentTx tx paymentId confirmedBy now).1
              paymentId confirmedBy2 now2 =
            ((confirmPaymentTx tx paymentId confirmedBy now).1,
             some .paymentAlreadyConfirmed)))) := by
  constructor
  · intro tx documentId verifiedBy now d hfind
    have hfind2 : ∀ (hv : d.verified = false),
        (verifyDocumentTx tx documentId verifiedBy now).1.documents.find?
          (fun x => decide (x.id = documentId)) =
        some { d with verified := true, verifiedBy := some verifiedBy, verifiedAt := some now } := by
      intro hv
      rw [(verifyDocumentTx_success_parts tx documentId verifiedBy now d
        hfind hv).2]
      exact find_updateFirstDocument tx.documents documentId
        (fun x => { x with verified := true, verifiedBy := some verifiedBy, verifiedAt := some now })
        (fun x => rfl) d hfind
    refine ⟨?_, fun hv => ⟨(verifyDocumentTx_success_parts tx documentId
      verifiedBy now d hfind hv).1, hfind2 hv, ?_⟩⟩
    · intro hv
      unfold verifyDocumentTx
      split
      · rename_i heq
        rw [hfind] at heq
        cases heq
      · rename_i q heq
        rw [hfind] at heq
        injection heq with heq2
        subst heq2
        rw [if_pos hv]
    · intro verifiedBy2 now2
      have hf2 := hfind2 hv
      generalize hgen : (verifyDocumentTx tx documentId verifiedBy now).1 = tx2 at hf2 ⊢
      unfold verifyDocumentTx
      split
      · rename_i heq
        rw [hf2] at heq
        cases heq
      · rename_i q heq
        rw [hf2] at heq
        injection heq with heq2
        subst heq2
        rw [if_pos rfl]
  · intro tx paymentId confirmedBy now p hfind
    have hfind2 : ∀ (hc : p.confirmed = false),
        (confirmPaymentTx tx paymentId confirmedBy now).1.payments.find?
          (fun q => decide (q.id = paymentId)) =
        some { p with confirmed := true } := by
      intro hc
      rw [(confirmPaymentTx_success_parts tx paymentId confirmedBy now p
        hfind hc).2]
      exact find_updateFirstPayment tx.payments paymentId
        (fun q => { q with confirmed := true }) (fun q => rfl) p hfind
    refine ⟨?_, fun hc => ⟨(confirmPaymentTx_success_parts tx paymentId
      confirmedBy now p hfind hc).1, hfind2 hc, ?_⟩⟩
    · intro hc
      unfold confirmPaymentTx
      split
      · rename_i heq
        rw [hfind] at heq
        cases heq
      · rename_i q heq
        rw [hfind] at heq
        injection heq with heq2
        subst heq2
        rw [if_pos hc]
    · intro confirmedBy2 now2
      have hf2 := hfind2 hc
      generalize hgen : (confirmPaymentTx tx paymentId confirmedBy now).1 = tx2 at hf2 ⊢
      unfold confirmPaymentTx
      split
      · rename_i heq
        rw [hf2] at heq
        cases heq
      · rename_i q heq
        rw [hf2] at heq
        injection heq with heq2
        subst heq2
        rw [if_pos rfl]

/-- C8 witness: on the concrete transaction `txVer3`, re-verifying the
already-verified document "doc-1" fails with the invalid-input error and
changes nothing. -/
theorem flags_flip_at_most_once_witness :
    verifyDocumentTx txVer3 "doc-1" "notary-002" 99 =
      (txVer3, some (.documentAlreadyVerified "doc-1")) :=
  (flags_flip_at_most_once.1 txVer3 "doc-1" "notary-002" 99
    { id := "doc-1", type := .TITLE_DEED, uploadedBy := "seller-001",
      uploadedAt := 1, verified := true, verifiedBy := some "notary-001",
      verifiedAt := some 5, notes := none }
    rfl).1 rfl

end RETS

